import Mathlib

/-!
Shallow embedding of the proxmox-soft-watchdog per-machine monitor
(`src/monitoring.rs`, `SingleMachineMonitoring::tick` and its supporting
data), together with theorems checking the specification's claims about it.

Modelling conventions:
  * `std::time::SystemTime` values are modelled as `Nat` seconds since the
    Unix epoch; all the monitor's own timestamps are whole seconds.  The
    several `SystemTime::now()` calls inside one `tick` are modelled as a
    single `now : Nat` per tick.
  * `Duration::duration_since(..).unwrap_or_default().as_secs()` is truncated
    subtraction on `Nat`, which matches `Nat.sub` exactly.
  * The results of the hypervisor API calls performed during one tick are the
    tick's inputs (`TickInput`); the notifications (`say` calls) and the
    numbers of ping/write/read/reset calls performed are the tick's outputs.
  * Notification texts are modelled as a dedicated `Msg` type carrying the
    data interpolated into the corresponding format string in the source.
-/

/-- The per-machine monitoring state (`SingleMachineMonitoringState` in
`src/monitoring.rs`). -/
inductive SingleMachineMonitoringState where
  /-- The machine's timer has been recently reset; payload is the Unixtime
  the machine has set. -/
  | Ok (t : Nat)
  /-- The machine's timer value hasn't been received yet. -/
  | NoData
  /-- The machine's timer is unusually far into the future. -/
  | TooFar (t : Nat)
  /-- The machine's timer has elapsed; final reset at the given Unixtime. -/
  | GracePeriod (t : Nat)
  /-- The machine was reset; monitoring resumes after the given Unixtime. -/
  | Resetting (t : Nat)
  /-- The machine is powered off, so monitoring should not happen. -/
  | PowerOff
deriving DecidableEq, Repr

abbrev MState := SingleMachineMonitoringState

/-- Does the state match `SingleMachineMonitoringState::Ok(_)`? -/
def MState.isOk : MState → Bool
  | .Ok _ => true
  | _ => false

/-- Does the state match `SingleMachineMonitoringState::TooFar(_)`? -/
def MState.isTooFar : MState → Bool
  | .TooFar _ => true
  | _ => false

/-- Does the state match `SingleMachineMonitoringState::GracePeriod(_)`? -/
def MState.isGrace : MState → Bool
  | .GracePeriod _ => true
  | _ => false

/-- The `THRESHOLDS` table from `src/monitoring.rs` (ascending). -/
def THRESHOLDS : List (Nat × String) :=
  [(60, "1 minute"), (120, "2 minutes"), (180, "3 minutes"), (240, "4 minutes"),
   (300, "5 minutes"), (600, "10 minutes"), (900, "15 minutes"), (1800, "30 minutes"),
   (3600, "1 hour"), (7200, "2 hours")]

/-- The per-machine configuration consumed by the monitor
(`VmConfig` in `src/config.rs`; the durations are in seconds).
`reset_duration` is the field read by `src/monitoring.rs` via
`self.config.reset_duration`. -/
structure VmConfig where
  max_no_warning_interval : Nat
  grace_period : Nat
  reset_duration : Nat
  dry_run : Bool
deriving DecidableEq, Repr

/-- The mutable per-machine monitor runtime (`SingleMachineMonitoring` in
`src/monitoring.rs`, minus the API/HTTP handles, which carry no state the
monitor logic reads). -/
structure SingleMachineMonitoring where
  state : MState
  config : VmConfig
  ping_fail_count : Nat
  last_sent_threshold : Option Nat
deriving DecidableEq, Repr

/-- `SingleMachineMonitoring::new`: initial runtime for a machine. -/
def SingleMachineMonitoring.new (cfg : VmConfig) : SingleMachineMonitoring :=
  ⟨.NoData, cfg, 0, none⟩

/-- One notification (`self.say(...)` call), abstracted to the data that the
source interpolates into the message text. -/
inductive Msg where
  | poweredOn
  | poweredOff
  | resetTimerDone
  | pingFailGrace
  | writeFailGrace
  | readFailGrace
  | parseFailGrace
  /-- The follow-up message quoting the literal (untrimmed) file content. -/
  | parseFailContent (content : List Char)
  | tooFarFuture (deadline : Nat)
  | machineOk
  | staleGrace (lastUpdate : Nat)
  | noDataGrace
  | graceExpiredResetting
  | dryRunNotice
  | resetFailed (err : String)
  | willResetIn (label : String)
deriving DecidableEq, Repr

/-- Value of a list of decimal digits, most significant first
(the accumulator loop of Rust's `u64::from_str`). -/
def digitsVal (ds : List Char) : Nat :=
  ds.foldl (fun a c => a * 10 + (c.toNat - 48)) 0

/-- Rust's `str::parse::<u64>()` on a list of characters: an optional leading
`'+'`, then one or more ASCII digits, with the value required to fit in 64
bits.  Any other shape is a parse error (`None`). -/
def parseU64 (cs : List Char) : Option Nat :=
  let ds := match cs with
    | c :: rest => if c = '+' then rest else cs
    | [] => cs
  if ds ≠ [] ∧ ds.all Char.isDigit then
    if digitsVal ds < 2 ^ 64 then some (digitsVal ds) else none
  else none

/-- Rust's `char::is_whitespace`: the Unicode White_Space property, true on
exactly 25 code points (TAB, LF, VT, FF, CR, SPACE, NEL, NBSP, OGHAM SPACE
MARK, EN QUAD .. HAIR SPACE, LINE SEPARATOR, PARAGRAPH SEPARATOR, NARROW
NBSP, MEDIUM MATHEMATICAL SPACE, IDEOGRAPHIC SPACE). -/
def isRustWhitespace (c : Char) : Bool :=
  let n := c.toNat
  n = 0x9 || n = 0xA || n = 0xB || n = 0xC || n = 0xD || n = 0x20 ||
  n = 0x85 || n = 0xA0 || n = 0x1680 ||
  n = 0x2000 || n = 0x2001 || n = 0x2002 || n = 0x2003 || n = 0x2004 ||
  n = 0x2005 || n = 0x2006 || n = 0x2007 || n = 0x2008 || n = 0x2009 ||
  n = 0x200A || n = 0x2028 || n = 0x2029 || n = 0x202F || n = 0x205F ||
  n = 0x3000

/-- Rust's `str::trim()`: strip leading and trailing Unicode whitespace. -/
def trimChars (cs : List Char) : List Char :=
  ((cs.dropWhile isRustWhitespace).reverse.dropWhile isRustWhitespace).reverse

/-- The results of the hypervisor API calls a single `tick` may perform,
plus the tick's time.  `running = none` models `get_is_machine_running`
returning `Err`; `readRes = none` models `guest_agent_read_file` returning
`Err`; `resetErr = some e` models `reset_vm` failing with error text `e`
(consulted only if the tick actually issues a reset). -/
structure TickInput where
  now : Nat
  running : Option Bool
  pingOk : Bool
  writeOk : Bool
  readRes : Option (List Char)
  resetErr : Option String
deriving DecidableEq, Repr

/-- Lines 104-108 of `src/monitoring.rs`: if we are not in `GracePeriod`,
reset `last_sent_threshold`. -/
def clearThreshold (m : SingleMachineMonitoring) : SingleMachineMonitoring :=
  match m.state with
  | .GracePeriod _ => m
  | _ => { m with last_sent_threshold := none }

/-- Lines 110-119: if the machine is currently resetting and the reset time
has passed, resume monitoring in `NoData`. -/
def resettingStep (now : Nat) (m : SingleMachineMonitoring) :
    SingleMachineMonitoring × List Msg :=
  match m.state with
  | .Resetting t =>
      if now ≥ t then ({ m with state := .NoData }, [.resetTimerDone]) else (m, [])
  | _ => (m, [])

/-- Lines 123-130: if the machine was `TooFar` but that has now passed,
it's back to `Ok`. -/
def tooFarStep (now : Nat) (m : SingleMachineMonitoring) : SingleMachineMonitoring :=
  match m.state with
  | .TooFar t =>
      if now + m.config.max_no_warning_interval ≥ t then { m with state := .Ok t } else m
  | _ => m

/-- Lines 132-155: ping the guest agent; on success reset the failure
counter, on failure increment it and, if it reached 5 while the state is
`Ok`, start the grace period. -/
def pingStep (now : Nat) (pingOk : Bool) (m : SingleMachineMonitoring) :
    SingleMachineMonitoring × List Msg :=
  if pingOk then ({ m with ping_fail_count := 0 }, [])
  else
    let m1 := { m with ping_fail_count := m.ping_fail_count + 1 }
    match m1.state with
    | .Ok _ =>
        if m1.ping_fail_count ≥ 5 then
          ({ m1 with state := .GracePeriod (now + m1.config.grace_period) }, [.pingFailGrace])
        else (m1, [])
    | _ => (m1, [])

/-- Lines 239-269: classification of a successfully parsed reset time. -/
def processDeadline (now : Nat) (v : Nat) (m : SingleMachineMonitoring) :
    SingleMachineMonitoring × List Msg :=
  let seconds_until_reset := v - now
  if seconds_until_reset > m.config.max_no_warning_interval then
    ({ m with state := .TooFar v }, if m.state.isTooFar then [] else [.tooFarFuture v])
  else if seconds_until_reset > 0 then
    ({ m with state := .Ok v }, if m.state.isOk then [] else [.machineOk])
  else (m, [])

/-- Result of the heartbeat-exchange step: updated monitor, notifications,
and the numbers of guest-file writes and reads performed. -/
structure HbOut where
  m : SingleMachineMonitoring
  msgs : List Msg
  writes : Nat
  reads : Nat
deriving DecidableEq, Repr

/-- Lines 157-274: if the last ping succeeded (failure counter is 0), write
the current time into the guest, then read and parse the guest's reset time;
each failure starts the grace period exactly when the state is `Ok`. -/
def heartbeatStep (now : Nat) (writeOk : Bool) (readRes : Option (List Char))
    (m : SingleMachineMonitoring) : HbOut :=
  if m.ping_fail_count = 0 then
    if writeOk = false then
      if m.state.isOk then
        ⟨{ m with state := .GracePeriod (now + m.config.grace_period) }, [.writeFailGrace], 1, 0⟩
      else ⟨m, [], 1, 0⟩
    else
      match readRes with
      | none =>
          if m.state.isOk then
            ⟨{ m with state := .GracePeriod (now + m.config.grace_period) },
              [.readFailGrace], 1, 1⟩
          else ⟨m, [], 1, 1⟩
      | some content =>
          match parseU64 (trimChars content) with
          | none =>
              if m.state.isOk then
                ⟨{ m with state := .GracePeriod (now + m.config.grace_period) },
                  [.parseFailGrace, .parseFailContent content], 1, 1⟩
              else ⟨m, [], 1, 1⟩
          | some v =>
              ⟨(processDeadline now v m).1, (processDeadline now v m).2, 1, 1⟩
  else ⟨m, [], 0, 0⟩

/-- Lines 276-289: if the `Ok` time is in the past, move to the grace
period. -/
def staleStep (now : Nat) (m : SingleMachineMonitoring) :
    SingleMachineMonitoring × List Msg :=
  match m.state with
  | .Ok t =>
      if t ≤ now then
        ({ m with state := .GracePeriod (now + m.config.grace_period) }, [.staleGrace t])
      else (m, [])
  | _ => (m, [])

/-- Lines 291-301: in `NoData`, start the grace period immediately. -/
def noDataStep (now : Nat) (m : SingleMachineMonitoring) :
    SingleMachineMonitoring × List Msg :=
  match m.state with
  | .NoData => ({ m with state := .GracePeriod (now + m.config.grace_period) }, [.noDataGrace])
  | _ => (m, [])

/-- Result of the grace-period-expiry step: updated monitor, notifications,
and the number of `reset_vm` calls issued. -/
structure ExpOut where
  m : SingleMachineMonitoring
  msgs : List Msg
  resets : Nat
deriving DecidableEq, Repr

/-- Lines 303-325: if the grace period has expired, move to `Resetting` and
issue the reset (suppressed by `dry_run`, which notifies instead; a reset
failure's error text is notified and the reset is not retried). -/
def expiryStep (now : Nat) (resetErr : Option String) (m : SingleMachineMonitoring) :
    ExpOut :=
  match m.state with
  | .GracePeriod t =>
      if t ≤ now then
        let m1 := { m with state := .Resetting (now + m.config.reset_duration) }
        if m1.config.dry_run then
          ⟨m1, [.graceExpiredResetting, .dryRunNotice], 0⟩
        else
          match resetErr with
          | none => ⟨m1, [.graceExpiredResetting], 1⟩
          | some e => ⟨m1, [.graceExpiredResetting, .resetFailed e], 1⟩
      else ⟨m, [], 0⟩
  | _ => ⟨m, [], 0⟩

/-- Lines 335-342: the first table entry strictly above `seconds_until_reset`,
defaulting to the last entry (`THRESHOLDS.last().unwrap()`). -/
def chooseThreshold (seconds_until_reset : Nat) : Nat × String :=
  match THRESHOLDS.find? (fun th => th.1 > seconds_until_reset) with
  | some th => th
  | none => THRESHOLDS.getLastD (0, "")

/-- Lines 327-361: in `GracePeriod`, pick the threshold for the remaining
time and notify if it differs from the last one sent. -/
def thresholdStep (now : Nat) (m : SingleMachineMonitoring) :
    SingleMachineMonitoring × List Msg :=
  match m.state with
  | .GracePeriod t =>
      let c := chooseThreshold (t - now)
      match m.last_sent_threshold with
      | none => ({ m with last_sent_threshold := some c.1 }, [.willResetIn c.2])
      | some last =>
          if last ≠ c.1 then
            ({ m with last_sent_threshold := some c.1 }, [.willResetIn c.2])
          else (m, [])
  | _ => (m, [])

/-- Everything one `tick` produces: the updated monitor runtime, the
notifications sent (in order), and how many guest pings, guest-file writes,
guest-file reads and reset calls were performed. -/
structure TickResult where
  monitor : SingleMachineMonitoring
  msgs : List Msg
  pings : Nat
  writes : Nat
  reads : Nat
  resets : Nat
deriving DecidableEq, Repr

/-- The body of `tick` after power-state reconciliation (lines 104-361),
in the fixed source order of the steps. -/
def tickMain (m0 : SingleMachineMonitoring) (i : TickInput) (msgs0 : List Msg) :
    TickResult :=
  let m1 := clearThreshold m0
  let r2 := resettingStep i.now m1
  let m3 := tooFarStep i.now r2.1
  let r4 := pingStep i.now i.pingOk m3
  let h := heartbeatStep i.now i.writeOk i.readRes r4.1
  let r5 := staleStep i.now h.m
  let r6 := noDataStep i.now r5.1
  let e := expiryStep i.now i.resetErr r6.1
  let r7 := thresholdStep i.now e.m
  ⟨r7.1, msgs0 ++ r2.2 ++ r4.2 ++ h.msgs ++ r5.2 ++ r6.2 ++ e.msgs ++ r7.2,
    1, h.writes, h.reads, e.resets⟩

/-- `SingleMachineMonitoring::tick` (lines 67-362): power-state
reconciliation (lines 68-102), then the main monitoring sequence. -/
def tick (m : SingleMachineMonitoring) (i : TickInput) : TickResult :=
  match i.running, m.state with
  | none, _ => ⟨m, [], 0, 0, 0, 0⟩
  | some false, .PowerOff => ⟨m, [], 0, 0, 0, 0⟩
  | some true, .PowerOff =>
      tickMain
        { m with state := .Resetting (i.now + m.config.reset_duration),
                 ping_fail_count := 0 } i [.poweredOn]
  | some false, _ => ⟨{ m with state := .PowerOff }, [.poweredOff], 0, 0, 0, 0⟩
  | some true, _ => tickMain m i []

/-- A sequence of ticks: final monitor and the per-tick notification lists. -/
def tickSeq (m : SingleMachineMonitoring) :
    List TickInput → SingleMachineMonitoring × List (List Msg)
  | [] => (m, [])
  | i :: is =>
      let r := tick m i
      let rest := tickSeq r.monitor is
      (rest.1, r.msgs :: rest.2)

/-! ## Helper lemmas about the threshold table -/

/-- Interval characterization of `chooseThreshold`: the loop over the
ascending `THRESHOLDS` table picks the first entry strictly above the
remaining seconds, defaulting to the last entry. -/
theorem chooseThreshold_eq (s : Nat) :
    chooseThreshold s =
      if s < 60 then (60, "1 minute")
      else if s < 120 then (120, "2 minutes")
      else if s < 180 then (180, "3 minutes")
      else if s < 240 then (240, "4 minutes")
      else if s < 300 then (300, "5 minutes")
      else if s < 600 then (600, "10 minutes")
      else if s < 900 then (900, "15 minutes")
      else if s < 1800 then (1800, "30 minutes")
      else if s < 3600 then (3600, "1 hour")
      else (7200, "2 hours") := by
  unfold chooseThreshold THRESHOLDS
  simp only [List.find?, gt_iff_lt]
  rcases Nat.lt_or_ge s 60 with h1 | h1
  · simp [h1]
  rcases Nat.lt_or_ge s 120 with h2 | h2
  · simp [Nat.not_lt.mpr h1, h2]
  rcases Nat.lt_or_ge s 180 with h3 | h3
  · simp [Nat.not_lt.mpr h1, Nat.not_lt.mpr h2, h3]
  rcases Nat.lt_or_ge s 240 with h4 | h4
  · simp [Nat.not_lt.mpr h1, Nat.not_lt.mpr h2, Nat.not_lt.mpr h3, h4]
  rcases Nat.lt_or_ge s 300 with h5 | h5
  · simp [Nat.not_lt.mpr h1, Nat.not_lt.mpr h2, Nat.not_lt.mpr h3, Nat.not_lt.mpr h4, h5]
  rcases Nat.lt_or_ge s 600 with h6 | h6
  · simp [Nat.not_lt.mpr h1, Nat.not_lt.mpr h2, Nat.not_lt.mpr h3, Nat.not_lt.mpr h4,
      Nat.not_lt.mpr h5, h6]
  rcases Nat.lt_or_ge s 900 with h7 | h7
  · simp [Nat.not_lt.mpr h1, Nat.not_lt.mpr h2, Nat.not_lt.mpr h3, Nat.not_lt.mpr h4,
      Nat.not_lt.mpr h5, Nat.not_lt.mpr h6, h7]
  rcases Nat.lt_or_ge s 1800 with h8 | h8
  · simp [Nat.not_lt.mpr h1, Nat.not_lt.mpr h2, Nat.not_lt.mpr h3, Nat.not_lt.mpr h4,
      Nat.not_lt.mpr h5, Nat.not_lt.mpr h6, Nat.not_lt.mpr h7, h8]
  rcases Nat.lt_or_ge s 3600 with h9 | h9
  · simp [Nat.not_lt.mpr h1, Nat.not_lt.mpr h2, Nat.not_lt.mpr h3, Nat.not_lt.mpr h4,
      Nat.not_lt.mpr h5, Nat.not_lt.mpr h6, Nat.not_lt.mpr h7, Nat.not_lt.mpr h8, h9]
  rcases Nat.lt_or_ge s 7200 with h10 | h10
  · simp [Nat.not_lt.mpr h1, Nat.not_lt.mpr h2, Nat.not_lt.mpr h3, Nat.not_lt.mpr h4,
      Nat.not_lt.mpr h5, Nat.not_lt.mpr h6, Nat.not_lt.mpr h7, Nat.not_lt.mpr h8,
      Nat.not_lt.mpr h9, h10]
  · simp [Nat.not_lt.mpr h1, Nat.not_lt.mpr h2, Nat.not_lt.mpr h3, Nat.not_lt.mpr h4,
      Nat.not_lt.mpr h5, Nat.not_lt.mpr h6, Nat.not_lt.mpr h7, Nat.not_lt.mpr h8,
      Nat.not_lt.mpr h9, Nat.not_lt.mpr h10]

/-- The chosen threshold is always an entry of the table. -/
theorem chooseThreshold_mem (s : Nat) : chooseThreshold s ∈ THRESHOLDS := by
  rw [chooseThreshold_eq]
  split_ifs <;> simp [THRESHOLDS]

/-- Below the largest entry, the chosen threshold strictly exceeds `s`. -/
theorem chooseThreshold_gt (s : Nat) (h : s < 7200) : s < (chooseThreshold s).1 := by
  rw [chooseThreshold_eq]
  split_ifs <;> simp <;> omega

/-- At or above the largest entry, the chosen threshold is the last entry. -/
theorem chooseThreshold_last (s : Nat) (h : 7200 ≤ s) :
    chooseThreshold s = (7200, "2 hours") := by
  rw [chooseThreshold_eq]
  split_ifs <;> first | rfl | omega

/-- The chosen threshold is minimal among entries strictly above `s`. -/
theorem chooseThreshold_min (s : Nat) :
    ∀ th ∈ THRESHOLDS, s < th.1 → (chooseThreshold s).1 ≤ th.1 := by
  intro th hth hlt
  have hv : th.1 = 60 ∨ th.1 = 120 ∨ th.1 = 180 ∨ th.1 = 240 ∨ th.1 = 300 ∨
      th.1 = 600 ∨ th.1 = 900 ∨ th.1 = 1800 ∨ th.1 = 3600 ∨ th.1 = 7200 := by
    simp only [THRESHOLDS, List.mem_cons, List.not_mem_nil, or_false] at hth
    rcases hth with rfl | rfl | rfl | rfl | rfl | rfl | rfl | rfl | rfl | rfl <;> simp
  rw [chooseThreshold_eq]
  split_ifs <;> simp only [Prod.fst] <;> omega

/-! ## Claim theorems -/

/-- C1: every tick reaching the grace-period-expiry check in
`GracePeriod(deadline)` with `deadline ≤ now` notifies the expiry and
transitions to `Resetting(now + reset_duration)`; the reset is called exactly
once when `dry_run` is false (a failure's error text is notified and the
reset is not retried), and when `dry_run` is true no reset call occurs but a
dry-run notice is sent — `dry_run` never suppresses the transition or the
notifications. -/
theorem expiry_step_c1 (now d : Nat) (cfg : VmConfig) (pf : Nat) (lst : Option Nat)
    (rerr : Option String) (h : d ≤ now) :
    (expiryStep now rerr ⟨.GracePeriod d, cfg, pf, lst⟩).m
        = ⟨.Resetting (now + cfg.reset_duration), cfg, pf, lst⟩ ∧
    Msg.graceExpiredResetting ∈ (expiryStep now rerr ⟨.GracePeriod d, cfg, pf, lst⟩).msgs ∧
    (cfg.dry_run = true →
      (expiryStep now rerr ⟨.GracePeriod d, cfg, pf, lst⟩).resets = 0 ∧
      Msg.dryRunNotice ∈ (expiryStep now rerr ⟨.GracePeriod d, cfg, pf, lst⟩).msgs) ∧
    (cfg.dry_run = false →
      (expiryStep now rerr ⟨.GracePeriod d, cfg, pf, lst⟩).resets = 1 ∧
      ∀ e, rerr = some e →
        Msg.resetFailed e ∈ (expiryStep now rerr ⟨.GracePeriod d, cfg, pf, lst⟩).msgs) := by
  unfold expiryStep
  rcases rerr with _ | e <;> cases hd : cfg.dry_run <;> simp_all

/-- Witness for C1 at a concrete input (reset fails with error text). -/
theorem expiry_step_c1_witness :
    (expiryStep 10 (some "boom") ⟨.GracePeriod 5, ⟨1800, 300, 120, false⟩, 0, none⟩).m
        = ⟨.Resetting 130, ⟨1800, 300, 120, false⟩, 0, none⟩ ∧
    (expiryStep 10 (some "boom") ⟨.GracePeriod 5, ⟨1800, 300, 120, false⟩, 0, none⟩).resets = 1 ∧
    Msg.resetFailed "boom"
      ∈ (expiryStep 10 (some "boom") ⟨.GracePeriod 5, ⟨1800, 300, 120, false⟩, 0, none⟩).msgs := by
  have h := expiry_step_c1 10 5 ⟨1800, 300, 120, false⟩ 0 none (some "boom") (by decide)
  exact ⟨h.1, (h.2.2.2 rfl).1, (h.2.2.2 rfl).2 "boom" rfl⟩

/-- C7: for every tick ending the main sequence in `GracePeriod(deadline)`,
the chosen threshold is the smallest table entry strictly above the remaining
seconds (the largest entry if none is), a "will reset in {label}" notification
is sent exactly when the chosen value differs from `lastSentThreshold` (or
none was sent yet), and the chosen value is then recorded. -/
theorem threshold_step_c7 (now d : Nat) (cfg : VmConfig) (pf : Nat) (lst : Option Nat) :
    (thresholdStep now ⟨.GracePeriod d, cfg, pf, lst⟩).1.last_sent_threshold
        = some (chooseThreshold (d - now)).1 ∧
    (thresholdStep now ⟨.GracePeriod d, cfg, pf, lst⟩).1.state = .GracePeriod d ∧
    ((thresholdStep now ⟨.GracePeriod d, cfg, pf, lst⟩).2
        = if lst = some (chooseThreshold (d - now)).1 then []
          else [Msg.willResetIn (chooseThreshold (d - now)).2]) ∧
    chooseThreshold (d - now) ∈ THRESHOLDS ∧
    ((∃ th ∈ THRESHOLDS, d - now < th.1) →
      (d - now < (chooseThreshold (d - now)).1 ∧
        ∀ th ∈ THRESHOLDS, d - now < th.1 → (chooseThreshold (d - now)).1 ≤ th.1)) ∧
    ((∀ th ∈ THRESHOLDS, th.1 ≤ d - now) →
      chooseThreshold (d - now) = (7200, "2 hours")) := by
  refine ⟨?_, ?_, ?_, chooseThreshold_mem _, ?_, ?_⟩
  · unfold thresholdStep
    rcases lst with _ | last
    · simp
    · by_cases hl : last = (chooseThreshold (d - now)).1 <;> simp [hl]
  · unfold thresholdStep
    rcases lst with _ | last
    · simp
    · by_cases hl : last = (chooseThreshold (d - now)).1 <;> simp [hl]
  · unfold thresholdStep
    rcases lst with _ | last
    · simp
    · by_cases hl : last = (chooseThreshold (d - now)).1 <;> simp [hl]
  · rintro ⟨th, hth, hlt⟩
    have hb : th.1 ≤ 7200 := by
      simp only [THRESHOLDS, List.mem_cons, List.not_mem_nil, or_false] at hth
      rcases hth with rfl | rfl | rfl | rfl | rfl | rfl | rfl | rfl | rfl | rfl <;> simp
    exact ⟨chooseThreshold_gt _ (by omega), chooseThreshold_min _⟩
  · intro hall
    exact chooseThreshold_last _ (hall (7200, "2 hours") (by simp [THRESHOLDS]))

/-- Witness for C7 at a concrete input: 90 seconds left, last sent threshold
120, so no repeat notification; the minimality part instantiated at the
3600-second entry. -/
theorem threshold_step_c7_witness :
    (thresholdStep 0 ⟨.GracePeriod 90, ⟨1800, 300, 120, false⟩, 0, some 120⟩).2 = [] ∧
    (thresholdStep 0 ⟨.GracePeriod 90, ⟨1800, 300, 120, false⟩, 0,
        some 120⟩).1.last_sent_threshold = some 120 ∧
    (90 : Nat) < (chooseThreshold 90).1 ∧ (chooseThreshold 90).1 ≤ 3600 := by
  have h := threshold_step_c7 0 90 ⟨1800, 300, 120, false⟩ 0 (some 120)
  have hex := h.2.2.2.2.1 ⟨(3600, "1 hour"), by simp [THRESHOLDS], by decide⟩
  refine ⟨?_, ?_, by simpa using hex.1, hex.2 (3600, "1 hour") (by simp [THRESHOLDS]) (by decide)⟩
  · have := h.2.2.1
    simpa [show chooseThreshold 90 = (120, "2 minutes") by simp [chooseThreshold_eq]] using this
  · have := h.1
    simpa [show chooseThreshold 90 = (120, "2 minutes") by simp [chooseThreshold_eq]] using this

/-- C2: in a tick whose heartbeat read succeeds and parses to `v`, with
`secondsUntil = v - now` clamped at zero: above `max_no_warning_interval` the
state becomes `TooFar v` (far-future notification exactly when not already
`TooFar`); in `(0, max_no_warning_interval]` the state becomes `Ok v` from
any state reached at that point (a "machine is OK" notification exactly when
not already `Ok`); at zero the heartbeat-processing step makes no
transition. -/
theorem heartbeat_step_c2 (now : Nat) (s0 : MState) (cfg : VmConfig) (lst : Option Nat)
    (content : List Char) (v : Nat)
    (hparse : parseU64 (trimChars content) = some v) :
    (v - now > cfg.max_no_warning_interval →
      (heartbeatStep now true (some content) ⟨s0, cfg, 0, lst⟩).m
          = ⟨.TooFar v, cfg, 0, lst⟩ ∧
      (Msg.tooFarFuture v ∈ (heartbeatStep now true (some content) ⟨s0, cfg, 0, lst⟩).msgs
          ↔ s0.isTooFar = false)) ∧
    (0 < v - now ∧ v - now ≤ cfg.max_no_warning_interval →
      (heartbeatStep now true (some content) ⟨s0, cfg, 0, lst⟩).m
          = ⟨.Ok v, cfg, 0, lst⟩ ∧
      (Msg.machineOk ∈ (heartbeatStep now true (some content) ⟨s0, cfg, 0, lst⟩).msgs
          ↔ s0.isOk = false)) ∧
    (v - now = 0 →
      (heartbeatStep now true (some content) ⟨s0, cfg, 0, lst⟩).m = ⟨s0, cfg, 0, lst⟩ ∧
      (heartbeatStep now true (some content) ⟨s0, cfg, 0, lst⟩).msgs = []) := by
  refine ⟨fun h => ?_, fun h => ?_, fun h => ?_⟩
  · simp only [heartbeatStep, processDeadline, hparse]
    cases hs : s0.isTooFar <;> simp_all
  · have h1 : ¬ v - now > cfg.max_no_warning_interval := Nat.not_lt.mpr h.2
    simp only [heartbeatStep, processDeadline, hparse, if_neg h1, if_pos h.1]
    cases hs : s0.isOk <;> simp_all
  · simp only [heartbeatStep, processDeadline, hparse]
    simp_all

/-- Witness for C2 at concrete inputs covering all three ranges
(`max_no_warning_interval = 1800`, `now = 1000`). -/
theorem heartbeat_step_c2_witness :
    (heartbeatStep 1000 true (some ['9', '9', '9', '9'])
        ⟨.NoData, ⟨1800, 300, 120, false⟩, 0, none⟩).m
      = ⟨.TooFar 9999, ⟨1800, 300, 120, false⟩, 0, none⟩ ∧
    (heartbeatStep 1000 true (some ['1', '5', '0', '0'])
        ⟨.GracePeriod 900, ⟨1800, 300, 120, false⟩, 0, none⟩).m
      = ⟨.Ok 1500, ⟨1800, 300, 120, false⟩, 0, none⟩ ∧
    (heartbeatStep 1000 true (some ['5', '0', '0'])
        ⟨.NoData, ⟨1800, 300, 120, false⟩, 0, none⟩).m
      = ⟨.NoData, ⟨1800, 300, 120, false⟩, 0, none⟩ := by
  refine ⟨?_, ?_, ?_⟩
  · exact ((heartbeat_step_c2 1000 .NoData ⟨1800, 300, 120, false⟩ none
      ['9', '9', '9', '9'] 9999 (by decide)).1 (by decide)).1
  · exact ((heartbeat_step_c2 1000 (.GracePeriod 900) ⟨1800, 300, 120, false⟩ none
      ['1', '5', '0', '0'] 1500 (by decide)).2.1 (by decide)).1
  · exact ((heartbeat_step_c2 1000 .NoData ⟨1800, 300, 120, false⟩ none
      ['5', '0', '0'] 500 (by decide)).2.2 (by decide)).1

/-- C4: when the heartbeat write fails, or the write succeeds but the read
fails, or the read content is unparsable, the failure handling transitions to
`GracePeriod(now + grace_period)` with a notification exactly when the state
at that point is `Ok`; in every other state it leaves the monitor
unchanged. -/
theorem heartbeat_step_c4 (now : Nat) (s0 : MState) (cfg : VmConfig) (lst : Option Nat)
    (wOk : Bool) (rr : Option (List Char))
    (hfail : wOk = false ∨ (wOk = true ∧ rr = none) ∨
      (∃ c, rr = some c ∧ parseU64 (trimChars c) = none)) :
    ((∃ t, s0 = .Ok t) →
      (heartbeatStep now wOk rr ⟨s0, cfg, 0, lst⟩).m
          = ⟨.GracePeriod (now + cfg.grace_period), cfg, 0, lst⟩ ∧
      (heartbeatStep now wOk rr ⟨s0, cfg, 0, lst⟩).msgs ≠ []) ∧
    (s0.isOk = false →
      (heartbeatStep now wOk rr ⟨s0, cfg, 0, lst⟩).m = ⟨s0, cfg, 0, lst⟩ ∧
      (heartbeatStep now wOk rr ⟨s0, cfg, 0, lst⟩).msgs = []) := by
  constructor
  · rintro ⟨t, rfl⟩
    rcases hfail with rfl | ⟨rfl, rfl⟩ | ⟨c, rfl, hparse⟩
    · simp [heartbeatStep, MState.isOk]
    · simp [heartbeatStep, MState.isOk]
    · cases wOk <;> simp [heartbeatStep, MState.isOk, hparse]
  · intro hs
    rcases hfail with rfl | ⟨rfl, rfl⟩ | ⟨c, rfl, hparse⟩
    · simp [heartbeatStep, hs]
    · simp [heartbeatStep, hs]
    · cases wOk <;> simp [heartbeatStep, hs, hparse]

/-- Witness for C4 at concrete inputs: unparsable content from `Ok`, and a
write failure from `TooFar` (unchanged). -/
theorem heartbeat_step_c4_witness :
    (heartbeatStep 1000 true (some ['u', 'h'])
        ⟨.Ok 900, ⟨1800, 300, 120, false⟩, 0, none⟩).m
      = ⟨.GracePeriod 1300, ⟨1800, 300, 120, false⟩, 0, none⟩ ∧
    (heartbeatStep 1000 false none
        ⟨.TooFar 9000, ⟨1800, 300, 120, false⟩, 0, none⟩).m
      = ⟨.TooFar 9000, ⟨1800, 300, 120, false⟩, 0, none⟩ := by
  constructor
  · exact ((heartbeat_step_c4 1000 (.Ok 900) ⟨1800, 300, 120, false⟩ none true
      (some ['u', 'h']) (Or.inr (Or.inr ⟨['u', 'h'], rfl, by decide⟩))).1 ⟨900, rfl⟩).1
  · exact ((heartbeat_step_c4 1000 (.TooFar 9000) ⟨1800, 300, 120, false⟩ none false
      none (Or.inl rfl)).2 (by decide)).1

/-! ## Step-local helper lemmas (field preservation, message vocabulary) -/

/-- `resettingStep` does not touch `last_sent_threshold`. -/
theorem resettingStep_lst (now : Nat) (m : SingleMachineMonitoring) :
    ((resettingStep now m).1).last_sent_threshold = m.last_sent_threshold := by
  unfold resettingStep
  repeat' split
  all_goals rfl

/-- `tooFarStep` does not touch `last_sent_threshold`. -/
theorem tooFarStep_lst (now : Nat) (m : SingleMachineMonitoring) :
    (tooFarStep now m).last_sent_threshold = m.last_sent_threshold := by
  unfold tooFarStep
  repeat' split
  all_goals rfl

/-- `pingStep` does not touch `last_sent_threshold`. -/
theorem pingStep_lst (now : Nat) (po : Bool) (m : SingleMachineMonitoring) :
    ((pingStep now po m).1).last_sent_threshold = m.last_sent_threshold := by
  unfold pingStep
  dsimp only
  repeat' split
  all_goals rfl

/-- `heartbeatStep` does not touch `last_sent_threshold`. -/
theorem heartbeatStep_lst (now : Nat) (wo : Bool) (rr : Option (List Char))
    (m : SingleMachineMonitoring) :
    (heartbeatStep now wo rr m).m.last_sent_threshold = m.last_sent_threshold := by
  unfold heartbeatStep processDeadline
  dsimp only
  repeat' split
  all_goals rfl

/-- `staleStep` does not touch `last_sent_threshold`. -/
theorem staleStep_lst (now : Nat) (m : SingleMachineMonitoring) :
    ((staleStep now m).1).last_sent_threshold = m.last_sent_threshold := by
  unfold staleStep
  repeat' split
  all_goals rfl

/-- `noDataStep` does not touch `last_sent_threshold`. -/
theorem noDataStep_lst (now : Nat) (m : SingleMachineMonitoring) :
    ((noDataStep now m).1).last_sent_threshold = m.last_sent_threshold := by
  unfold noDataStep
  repeat' split
  all_goals rfl

/-- `expiryStep` does not touch `last_sent_threshold`. -/
theorem expiryStep_lst (now : Nat) (re : Option String) (m : SingleMachineMonitoring) :
    (expiryStep now re m).m.last_sent_threshold = m.last_sent_threshold := by
  unfold expiryStep
  dsimp only
  repeat' split
  all_goals rfl

/-- `thresholdStep` never changes the state. -/
theorem thresholdStep_state (now : Nat) (m : SingleMachineMonitoring) :
    ((thresholdStep now m).1).state = m.state := by
  unfold thresholdStep
  dsimp only
  repeat' split
  all_goals rfl

/-- Outside `GracePeriod`, `thresholdStep` is the identity with no output. -/
theorem thresholdStep_not_grace (now : Nat) (m : SingleMachineMonitoring)
    (h : m.state.isGrace = false) : thresholdStep now m = (m, []) := by
  unfold thresholdStep
  rcases m with ⟨s, cfg, pf, lst⟩
  cases s <;> simp_all [MState.isGrace]

/-- `heartbeatStep` does not touch `ping_fail_count`. -/
theorem heartbeatStep_pfc (now : Nat) (wo : Bool) (rr : Option (List Char))
    (m : SingleMachineMonitoring) :
    (heartbeatStep now wo rr m).m.ping_fail_count = m.ping_fail_count := by
  unfold heartbeatStep processDeadline
  dsimp only
  repeat' split
  all_goals rfl

/-- `staleStep` does not touch `ping_fail_count`. -/
theorem staleStep_pfc (now : Nat) (m : SingleMachineMonitoring) :
    ((staleStep now m).1).ping_fail_count = m.ping_fail_count := by
  unfold staleStep
  repeat' split
  all_goals rfl

/-- `noDataStep` does not touch `ping_fail_count`. -/
theorem noDataStep_pfc (now : Nat) (m : SingleMachineMonitoring) :
    ((noDataStep now m).1).ping_fail_count = m.ping_fail_count := by
  unfold noDataStep
  repeat' split
  all_goals rfl

/-- `expiryStep` does not touch `ping_fail_count`. -/
theorem expiryStep_pfc (now : Nat) (re : Option String) (m : SingleMachineMonitoring) :
    (expiryStep now re m).m.ping_fail_count = m.ping_fail_count := by
  unfold expiryStep
  dsimp only
  repeat' split
  all_goals rfl

/-- `thresholdStep` does not touch `ping_fail_count`. -/
theorem thresholdStep_pfc (now : Nat) (m : SingleMachineMonitoring) :
    ((thresholdStep now m).1).ping_fail_count = m.ping_fail_count := by
  unfold thresholdStep
  dsimp only
  repeat' split
  all_goals rfl

/-- Only the ping step can emit the five-failures notification. -/
theorem heartbeatStep_no_pingFail (now : Nat) (wo : Bool) (rr : Option (List Char))
    (m : SingleMachineMonitoring) :
    Msg.pingFailGrace ∉ (heartbeatStep now wo rr m).msgs := by
  unfold heartbeatStep processDeadline
  dsimp only
  repeat' split
  all_goals simp

/-- `staleStep` never emits the five-failures notification. -/
theorem staleStep_no_pingFail (now : Nat) (m : SingleMachineMonitoring) :
    Msg.pingFailGrace ∉ ((staleStep now m).2) := by
  unfold staleStep
  repeat' split
  all_goals simp

/-- `noDataStep` never emits the five-failures notification. -/
theorem noDataStep_no_pingFail (now : Nat) (m : SingleMachineMonitoring) :
    Msg.pingFailGrace ∉ ((noDataStep now m).2) := by
  unfold noDataStep
  repeat' split
  all_goals simp

/-- `expiryStep` never emits the five-failures notification. -/
theorem expiryStep_no_pingFail (now : Nat) (re : Option String)
    (m : SingleMachineMonitoring) :
    Msg.pingFailGrace ∉ (expiryStep now re m).msgs := by
  unfold expiryStep
  dsimp only
  repeat' split
  all_goals simp

/-- `thresholdStep` never emits the five-failures notification. -/
theorem thresholdStep_no_pingFail (now : Nat) (m : SingleMachineMonitoring) :
    Msg.pingFailGrace ∉ ((thresholdStep now m).2) := by
  unfold thresholdStep
  dsimp only
  repeat' split
  all_goals simp

/-- `resettingStep` never emits the five-failures notification. -/
theorem resettingStep_no_pingFail (now : Nat) (m : SingleMachineMonitoring) :
    Msg.pingFailGrace ∉ ((resettingStep now m).2) := by
  unfold resettingStep
  repeat' split
  all_goals simp

/-- A tick whose ping fails without reaching five failures, starting from
`Ok t` with `t` still in the future, only increments the failure counter
(and clears `last_sent_threshold`): no transition, no notification. -/
theorem tick_pingfail_ok (t k : Nat) (cfg : VmConfig) (lst : Option Nat) (n : Nat)
    (wo : Bool) (rr : Option (List Char)) (re : Option String)
    (hk : k + 1 < 5) (hn : n < t) :
    tick ⟨.Ok t, cfg, k, lst⟩ ⟨n, some true, false, wo, rr, re⟩
      = ⟨⟨.Ok t, cfg, k + 1, none⟩, [], 1, 0, 0, 0⟩ := by
  have h5 : ¬ k + 1 ≥ 5 := by omega
  have hz : k + 1 ≠ 0 := by omega
  have hns : ¬ t ≤ n := Nat.not_le.mpr hn
  simp [tick, tickMain, clearThreshold, resettingStep, tooFarStep, pingStep,
    heartbeatStep, staleStep, noDataStep, expiryStep, thresholdStep, h5, hz, hns]

/-- If the main sequence starts outside `GracePeriod` and also ends outside
`GracePeriod`, then `last_sent_threshold` is `none` at the end. -/
theorem tickMain_lst_none (m0 : SingleMachineMonitoring) (i : TickInput)
    (msgs0 : List Msg) (h0 : m0.state.isGrace = false)
    (h1 : (tickMain m0 i msgs0).monitor.state.isGrace = false) :
    (tickMain m0 i msgs0).monitor.last_sent_threshold = none := by
  have hc : (clearThreshold m0).last_sent_threshold = none := by
    rcases m0 with ⟨s, cfg, pf, lst⟩
    cases s <;> simp_all [clearThreshold, MState.isGrace]
  have key : ∀ mm : SingleMachineMonitoring, mm.last_sent_threshold = none →
      ((thresholdStep i.now mm).1).state.isGrace = false →
      ((thresholdStep i.now mm).1).last_sent_threshold = none := by
    intro mm hl hg
    by_cases h : mm.state.isGrace
    · rw [thresholdStep_state] at hg
      rw [h] at hg
      exact absurd hg (by simp)
    · rw [thresholdStep_not_grace i.now mm (by simpa using h)]
      exact hl
  unfold tickMain at h1 ⊢
  dsimp only at h1 ⊢
  refine key _ ?_ h1
  rw [expiryStep_lst, noDataStep_lst, staleStep_lst, heartbeatStep_lst, pingStep_lst,
    tooFarStep_lst, resettingStep_lst, hc]

/-- C3: five consecutive ping failures starting from `Ok t` (counter 0)
leave the first four ticks without any transition or notification (counter
reaching 4), and the fifth failure transitions to
`GracePeriod(tick-time + grace_period)` with the notification; a successful
fifth ping instead resets the counter to 0 and never produces the
five-failure notification; and a failure in any state other than `Ok` never
triggers the transition. -/
theorem ping_five_fail_c3
    (t : Nat) (cfg : VmConfig) (lst : Option Nat)
    (n1 n2 n3 n4 n5 : Nat) (wo1 wo2 wo3 wo4 wo5 : Bool)
    (rr1 rr2 rr3 rr4 rr5 : Option (List Char)) (re1 re2 re3 re4 re5 : Option String)
    (j : TickInput) (hjr : j.running = some true) (hjp : j.pingOk = true)
    (s : MState) (hs : s.isOk = false) (cfg2 : VmConfig) (pf2 n6 : Nat)
    (lst2 : Option Nat)
    (h1 : n1 < t) (h2 : n2 < t) (h3 : n3 < t) (h4 : n4 < t) :
    tickSeq ⟨.Ok t, cfg, 0, lst⟩
        [⟨n1, some true, false, wo1, rr1, re1⟩, ⟨n2, some true, false, wo2, rr2, re2⟩,
         ⟨n3, some true, false, wo3, rr3, re3⟩, ⟨n4, some true, false, wo4, rr4, re4⟩]
      = (⟨.Ok t, cfg, 4, none⟩, [[], [], [], []]) ∧
    pingStep n5 false ⟨.Ok t, cfg, 4, none⟩
      = (⟨.GracePeriod (n5 + cfg.grace_period), cfg, 5, none⟩, [.pingFailGrace]) ∧
    Msg.pingFailGrace
      ∈ (tick ⟨.Ok t, cfg, 4, none⟩ ⟨n5, some true, false, wo5, rr5, re5⟩).msgs ∧
    (tick ⟨.Ok t, cfg, 4, none⟩ j).monitor.ping_fail_count = 0 ∧
    Msg.pingFailGrace ∉ (tick ⟨.Ok t, cfg, 4, none⟩ j).msgs ∧
    pingStep n6 false ⟨s, cfg2, pf2, lst2⟩ = (⟨s, cfg2, pf2 + 1, lst2⟩, []) := by
  obtain ⟨nj, runj, poj, woj, rrj, rej⟩ := j
  dsimp only at hjr hjp
  subst hjr hjp
  have e1 := tick_pingfail_ok t 0 cfg lst n1 wo1 rr1 re1 (by omega) h1
  have e2 := tick_pingfail_ok t 1 cfg none n2 wo2 rr2 re2 (by omega) h2
  have e3 := tick_pingfail_ok t 2 cfg none n3 wo3 rr3 re3 (by omega) h3
  have e4 := tick_pingfail_ok t 3 cfg none n4 wo4 rr4 re4 (by omega) h4
  refine ⟨by simp [tickSeq, e1, e2, e3, e4], by simp [pingStep], ?_, ?_, ?_, ?_⟩
  · simp [tick, tickMain, clearThreshold, resettingStep, tooFarStep, pingStep,
      heartbeatStep, staleStep, noDataStep, List.mem_append]
  · simp [tick, tickMain, clearThreshold, resettingStep, tooFarStep, pingStep,
      thresholdStep_pfc, expiryStep_pfc, noDataStep_pfc, staleStep_pfc,
      heartbeatStep_pfc]
  · simp [tick, tickMain, clearThreshold, resettingStep, tooFarStep, pingStep,
      List.mem_append, heartbeatStep_no_pingFail, staleStep_no_pingFail,
      noDataStep_no_pingFail, expiryStep_no_pingFail, thresholdStep_no_pingFail]
  · cases s <;> simp_all [pingStep, MState.isOk]

/-- Witness for C3 at concrete inputs (`t = 100`, failing ticks at times
10, 20, 30, 40, fifth tick at 50; success tick at 60; non-`Ok` state
`NoData` with counter 7). -/
theorem ping_five_fail_c3_witness :
    tickSeq ⟨.Ok 100, ⟨1800, 300, 120, false⟩, 0, none⟩
        [⟨10, some true, false, true, none, none⟩, ⟨20, some true, false, true, none, none⟩,
         ⟨30, some true, false, true, none, none⟩, ⟨40, some true, false, true, none, none⟩]
      = (⟨.Ok 100, ⟨1800, 300, 120, false⟩, 4, none⟩, [[], [], [], []]) ∧
    pingStep 50 false ⟨.Ok 100, ⟨1800, 300, 120, false⟩, 4, none⟩
      = (⟨.GracePeriod 350, ⟨1800, 300, 120, false⟩, 5, none⟩, [.pingFailGrace]) ∧
    (tick ⟨.Ok 100, ⟨1800, 300, 120, false⟩, 4, none⟩
        ⟨60, some true, true, true, none, none⟩).monitor.ping_fail_count = 0 ∧
    pingStep 70 false ⟨.NoData, ⟨1800, 300, 120, false⟩, 7, none⟩
      = (⟨.NoData, ⟨1800, 300, 120, false⟩, 8, none⟩, []) := by
  have h := ping_five_fail_c3 100 ⟨1800, 300, 120, false⟩ none
    10 20 30 40 50 true true true true true none none none none none
    none none none none none ⟨60, some true, true, true, none, none⟩ rfl rfl
    .NoData rfl ⟨1800, 300, 120, false⟩ 7 70 none
    (by omega) (by omega) (by omega) (by omega)
  exact ⟨h.1, h.2.1, h.2.2.2.1, h.2.2.2.2.2⟩

/-- C5 counterexample: from the initial state, one tick whose read fails
enters `GracePeriod` and records `lastSentThreshold = some 600`; the next
tick reports power off, so the state leaves `GracePeriod` (to `PowerOff`)
but `lastSentThreshold` is still `some 600 ≠ none` at the end of that
tick. -/
theorem tick_lst_c5_cex :
    ((tickSeq (SingleMachineMonitoring.new ⟨1800, 300, 120, false⟩)
        [⟨1000, some true, true, true, none, none⟩,
         ⟨1005, some false, true, true, none, none⟩]).1.state.isGrace = false) ∧
    (tickSeq (SingleMachineMonitoring.new ⟨1800, 300, 120, false⟩)
        [⟨1000, some true, true, true, none, none⟩,
         ⟨1005, some false, true, true, none, none⟩]).1.state = .PowerOff ∧
    (tickSeq (SingleMachineMonitoring.new ⟨1800, 300, 120, false⟩)
        [⟨1000, some true, true, true, none, none⟩,
         ⟨1005, some false, true, true, none, none⟩]).1.last_sent_threshold
      = some 600 := by
  refine ⟨by decide, by decide, by decide⟩

/-- C5 amended: `lastSentThreshold` is cleared at the start of each tick
that proceeds past power reconciliation, so for a tick that begins outside
`GracePeriod` (with the machine reported running) and also ends outside
`GracePeriod`, `lastSentThreshold` is `none` at the end; a tick that itself
leaves `GracePeriod` (or is cut short by power reconciliation) can end with
the stale previous value, which is cleared on the next monitored tick. -/
theorem tick_lst_c5_amended (m : SingleMachineMonitoring) (i : TickInput)
    (hrun : i.running = some true) (hg : m.state.isGrace = false)
    (hfin : (tick m i).monitor.state.isGrace = false) :
    (tick m i).monitor.last_sent_threshold = none := by
  rcases m with ⟨s, cfg, pf, lst⟩
  rcases i with ⟨n, run, po, wo, rr, re⟩
  dsimp only at hrun
  subst hrun
  cases s
  case GracePeriod t => simp [MState.isGrace] at hg
  case PowerOff => exact tickMain_lst_none _ _ _ rfl hfin
  all_goals exact tickMain_lst_none _ _ _ rfl hfin

/-- Witness for the amended C5: a failing-ping tick from `Ok 2000` at time
1000 ends in `Ok 2000` with the stale `some 60` cleared to `none`. -/
theorem tick_lst_c5_amended_witness :
    (tick ⟨.Ok 2000, ⟨1800, 300, 120, false⟩, 0, some 60⟩
        ⟨1000, some true, false, true, none, none⟩).monitor.last_sent_threshold
      = none := by
  exact tick_lst_c5_amended ⟨.Ok 2000, ⟨1800, 300, 120, false⟩, 0, some 60⟩
    ⟨1000, some true, false, true, none, none⟩ rfl (by decide) (by decide)

/-- C6 counterexample: a tick beginning in `Resetting 2000` at time 1000
(before `resumeAt`), with the machine running, still performs the guest ping
and the full heartbeat exchange, and a valid guest deadline even transitions
the state out of `Resetting` to `Ok 1500`. -/
theorem tick_resetting_c6_cex :
    (tick ⟨.Resetting 2000, ⟨1800, 300, 120, false⟩, 0, none⟩
        ⟨1000, some true, true, true, some ['1', '5', '0', '0'], none⟩).pings = 1 ∧
    (tick ⟨.Resetting 2000, ⟨1800, 300, 120, false⟩, 0, none⟩
        ⟨1000, some true, true, true, some ['1', '5', '0', '0'], none⟩).writes = 1 ∧
    (tick ⟨.Resetting 2000, ⟨1800, 300, 120, false⟩, 0, none⟩
        ⟨1000, some true, true, true, some ['1', '5', '0', '0'], none⟩).reads = 1 ∧
    (tick ⟨.Resetting 2000, ⟨1800, 300, 120, false⟩, 0, none⟩
        ⟨1000, some true, true, true, some ['1', '5', '0', '0'], none⟩).monitor.state
      = .Ok 1500 := by
  refine ⟨by decide, by decide, by decide, by decide⟩

/-- C6 amended: while `Resetting(resumeAt)` with `now < resumeAt` and the
machine running, the `Resetting`-expiry step makes no transition, but polling
is not fully suspended: the guest ping still occurs; only when the ping
fails is the heartbeat exchange skipped, and then the tick ends still in
`Resetting(resumeAt)` with no notification (a successful ping leads to a
heartbeat exchange that can transition out of `Resetting`, as the
counterexample shows). -/
theorem tick_resetting_c6_amended (r pf : Nat) (cfg : VmConfig) (lst : Option Nat)
    (n : Nat) (wo : Bool) (rr : Option (List Char)) (re : Option String)
    (hn : n < r) :
    tick ⟨.Resetting r, cfg, pf, lst⟩ ⟨n, some true, false, wo, rr, re⟩
      = ⟨⟨.Resetting r, cfg, pf + 1, none⟩, [], 1, 0, 0, 0⟩ := by
  have hr : ¬ n ≥ r := Nat.not_le.mpr hn
  have hz : pf + 1 ≠ 0 := by omega
  simp [tick, tickMain, clearThreshold, resettingStep, tooFarStep, pingStep,
    heartbeatStep, staleStep, noDataStep, expiryStep, thresholdStep, hr, hz]

/-- Witness for the amended C6 at a concrete input. -/
theorem tick_resetting_c6_amended_witness :
    tick ⟨.Resetting 2000, ⟨1800, 300, 120, false⟩, 1, some 60⟩
        ⟨1000, some true, false, true, none, none⟩
      = ⟨⟨.Resetting 2000, ⟨1800, 300, 120, false⟩, 2, none⟩, [], 1, 0, 0, 0⟩ := by
  exact tick_resetting_c6_amended 2000 1 ⟨1800, 300, 120, false⟩ (some 60)
    1000 true none none (by omega)

/-- C8: a tick beginning in `Ok t` with `t ≤ now`, machine running,
`grace_period = 0`, and a failing ping below the five-failure threshold,
transitions `Ok → GracePeriod(now)` in the stale-deadline step and then
`GracePeriod → Resetting(now + reset_duration)` in the expiry step of the
same tick. -/
theorem tick_stale_expiry_c8 (t pf : Nat) (cfg : VmConfig) (lst : Option Nat)
    (n : Nat) (re : Option String) (wo : Bool) (rr : Option (List Char))
    (hpf : pf + 1 < 5) (ht : t ≤ n) (hgp : cfg.grace_period = 0) :
    (tick ⟨.Ok t, cfg, pf, lst⟩ ⟨n, some true, false, wo, rr, re⟩).monitor.state
        = .Resetting (n + cfg.reset_duration) ∧
    staleStep n ⟨.Ok t, cfg, pf + 1, none⟩
        = (⟨.GracePeriod n, cfg, pf + 1, none⟩, [.staleGrace t]) ∧
    Msg.staleGrace t
        ∈ (tick ⟨.Ok t, cfg, pf, lst⟩ ⟨n, some true, false, wo, rr, re⟩).msgs ∧
    Msg.graceExpiredResetting
        ∈ (tick ⟨.Ok t, cfg, pf, lst⟩ ⟨n, some true, false, wo, rr, re⟩).msgs := by
  have h5 : ¬ pf + 1 ≥ 5 := by omega
  have hz : pf + 1 ≠ 0 := by omega
  rcases re with _ | e <;> cases hd : cfg.dry_run <;>
    simp [tick, tickMain, clearThreshold, resettingStep, tooFarStep, pingStep,
      heartbeatStep, staleStep, noDataStep, expiryStep, thresholdStep,
      h5, hz, ht, hgp, hd]

/-- Witness for C8 at a concrete input. -/
theorem tick_stale_expiry_c8_witness :
    (tick ⟨.Ok 900, ⟨1800, 0, 120, false⟩, 0, none⟩
        ⟨1000, some true, false, true, none, none⟩).monitor.state = .Resetting 1120 ∧
    Msg.staleGrace 900
      ∈ (tick ⟨.Ok 900, ⟨1800, 0, 120, false⟩, 0, none⟩
          ⟨1000, some true, false, true, none, none⟩).msgs ∧
    Msg.graceExpiredResetting
      ∈ (tick ⟨.Ok 900, ⟨1800, 0, 120, false⟩, 0, none⟩
          ⟨1000, some true, false, true, none, none⟩).msgs := by
  have h := tick_stale_expiry_c8 900 0 ⟨1800, 0, 120, false⟩ none 1000 none true none
    (by omega) (by omega) rfl
  exact ⟨h.1, h.2.2.1, h.2.2.2⟩

/-- C10: a parsed heartbeat deadline that is not in the future
(`secondsUntil = 0`) never downgrades a still-valid `Ok` state within the
tick: from `Ok t` with `now < t`, the tick ends in `Ok t` with the stored
deadline unchanged, the counter reset and no notifications. -/
theorem tick_no_downgrade_c10 (t v pf : Nat) (cfg : VmConfig) (lst : Option Nat)
    (n : Nat) (re : Option String) (c : List Char)
    (hparse : parseU64 (trimChars c) = some v)
    (hv : v ≤ n) (ht : n < t) :
    (tick ⟨.Ok t, cfg, pf, lst⟩ ⟨n, some true, true, true, some c, re⟩).monitor
        = ⟨.Ok t, cfg, 0, none⟩ ∧
    (tick ⟨.Ok t, cfg, pf, lst⟩ ⟨n, some true, true, true, some c, re⟩).msgs = [] := by
  have hsub : v - n = 0 := Nat.sub_eq_zero_of_le hv
  have hns : ¬ t ≤ n := Nat.not_le.mpr ht
  simp [tick, tickMain, clearThreshold, resettingStep, tooFarStep, pingStep,
    heartbeatStep, processDeadline, staleStep, noDataStep, expiryStep, thresholdStep,
    hparse, hsub, hns]

/-- Witness for C10 at a concrete input (stored deadline 2000, guest reports
500 which is already past at time 1000). -/
theorem tick_no_downgrade_c10_witness :
    (tick ⟨.Ok 2000, ⟨1800, 300, 120, false⟩, 3, some 60⟩
        ⟨1000, some true, true, true, some ['5', '0', '0'], none⟩).monitor
      = ⟨.Ok 2000, ⟨1800, 300, 120, false⟩, 0, none⟩ := by
  exact (tick_no_downgrade_c10 2000 500 3 ⟨1800, 300, 120, false⟩ (some 60) 1000 none
    ['5', '0', '0'] (by decide) (by omega) (by omega)).1

/-! ## Trimming and parsing lemmas (for C9) -/

/-- A decimal digit is not whitespace. -/
theorem digit_not_whitespace (c : Char) (h : c.isDigit = true) :
    isRustWhitespace c = false := by
  have hb : 48 ≤ c.toNat ∧ c.toNat ≤ 57 := by
    simp only [Char.isDigit, ge_iff_le, Bool.and_eq_true, decide_eq_true_eq] at h
    exact ⟨h.1, h.2⟩
  cases hw : isRustWhitespace c
  · rfl
  · exfalso
    simp only [isRustWhitespace, Bool.or_eq_true, decide_eq_true_eq] at hw
    omega

/-- `dropWhile` discards a prefix wholly satisfying the predicate. -/
theorem dropWhile_append_all (p : Char → Bool) (w l : List Char)
    (hw : ∀ c ∈ w, p c = true) :
    (w ++ l).dropWhile p = l.dropWhile p := by
  induction w with
  | nil => simp
  | cons a w ih =>
    have ha : p a = true := hw a (by simp)
    simp only [List.cons_append, List.dropWhile_cons, ha, if_true]
    exact ih fun c hc => hw c (List.mem_cons_of_mem _ hc)

/-- `dropWhile` stops at a head not satisfying the predicate. -/
theorem dropWhile_cons_false (p : Char → Bool) (a : Char) (l : List Char)
    (h : p a = false) : (a :: l).dropWhile p = a :: l := by
  simp [List.dropWhile_cons, h]

/-- Trimming a digit string surrounded by whitespace yields the digits. -/
theorem trimChars_ws_digits (w1 ds w2 : List Char)
    (hw1 : ∀ c ∈ w1, isRustWhitespace c = true)
    (hw2 : ∀ c ∈ w2, isRustWhitespace c = true)
    (hne : ds ≠ []) (hds : ∀ c ∈ ds, c.isDigit = true) :
    trimChars (w1 ++ ds ++ w2) = ds := by
  obtain ⟨a, tl, rfl⟩ : ∃ a tl, ds = a :: tl := by
    cases ds with
    | nil => exact absurd rfl hne
    | cons a tl => exact ⟨a, tl, rfl⟩
  have ha : isRustWhitespace a = false := digit_not_whitespace a (hds a (by simp))
  obtain ⟨b, u, hbu⟩ : ∃ b u, (a :: tl).reverse = b :: u := by
    cases h : (a :: tl).reverse with
    | nil => exact absurd h (by simp)
    | cons b u => exact ⟨b, u, rfl⟩
  have hbmem : b ∈ a :: tl := by
    rw [← List.mem_reverse, hbu]
    simp
  have hb : isRustWhitespace b = false := digit_not_whitespace b (hds b hbmem)
  unfold trimChars
  rw [List.append_assoc, dropWhile_append_all _ w1 _ hw1]
  rw [show a :: tl ++ w2 = a :: (tl ++ w2) by simp]
  rw [dropWhile_cons_false _ _ _ ha]
  rw [show a :: (tl ++ w2) = (a :: tl) ++ w2 by simp]
  rw [List.reverse_append]
  rw [dropWhile_append_all _ w2.reverse _ (by intro c hc; exact hw2 c (List.mem_reverse.mp hc))]
  rw [hbu, dropWhile_cons_false _ _ _ hb, ← hbu, List.reverse_reverse]

/-- A nonempty all-digit string within the 64-bit range parses to its
value. -/
theorem parseU64_digits (ds : List Char) (hne : ds ≠ [])
    (hds : ∀ c ∈ ds, c.isDigit = true) (hval : digitsVal ds < 2 ^ 64) :
    parseU64 ds = some (digitsVal ds) := by
  obtain ⟨a, tl, rfl⟩ : ∃ a tl, ds = a :: tl := by
    cases ds with
    | nil => exact absurd rfl hne
    | cons a tl => exact ⟨a, tl, rfl⟩
  have hap : a ≠ '+' := by
    intro h
    have hd := hds a (by simp)
    rw [h] at hd
    exact absurd hd (by decide)
  have hall : (a :: tl).all Char.isDigit = true := by
    rw [List.all_eq_true]
    intro c hc
    exact hds c hc
  unfold parseU64
  dsimp only
  rw [if_neg hap]
  rw [if_pos ⟨List.cons_ne_nil a tl, hall⟩, if_pos hval]

/-- C9: heartbeat content is trimmed of surrounding whitespace before being
parsed as an unsigned 64-bit decimal integer, so a decimal timestamp
surrounded only by whitespace parses to its value and classification
proceeds on it; content whose trimmed form does not parse (in particular
empty content, or a negative number) takes the unparsable path, which from
`Ok` starts the grace period and sends a follow-up notification quoting the
untrimmed literal content. -/
theorem heartbeat_parse_c9
    (now t : Nat) (s0 : MState) (cfg : VmConfig) (lst lst2 : Option Nat)
    (w1 ds w2 : List Char) (c2 : List Char)
    (hw1 : ∀ c ∈ w1, isRustWhitespace c = true)
    (hw2 : ∀ c ∈ w2, isRustWhitespace c = true)
    (hne : ds ≠ []) (hds : ∀ c ∈ ds, c.isDigit = true)
    (hval : digitsVal ds < 2 ^ 64)
    (hbad : parseU64 (trimChars c2) = none) :
    parseU64 (trimChars (w1 ++ ds ++ w2)) = some (digitsVal ds) ∧
    heartbeatStep now true (some (w1 ++ ds ++ w2)) ⟨s0, cfg, 0, lst⟩
      = ⟨(processDeadline now (digitsVal ds) ⟨s0, cfg, 0, lst⟩).1,
          (processDeadline now (digitsVal ds) ⟨s0, cfg, 0, lst⟩).2, 1, 1⟩ ∧
    heartbeatStep now true (some c2) ⟨.Ok t, cfg, 0, lst2⟩
      = ⟨⟨.GracePeriod (now + cfg.grace_period), cfg, 0, lst2⟩,
          [.parseFailGrace, .parseFailContent c2], 1, 1⟩ ∧
    parseU64 [] = none ∧
    (∀ rest : List Char, parseU64 ('-' :: rest) = none) := by
  have hp : parseU64 (trimChars (w1 ++ ds ++ w2)) = some (digitsVal ds) := by
    rw [trimChars_ws_digits w1 ds w2 hw1 hw2 hne hds]
    exact parseU64_digits ds hne hds hval
  have hpa : parseU64 (trimChars (w1 ++ (ds ++ w2))) = some (digitsVal ds) := by
    rw [← List.append_assoc]
    exact hp
  refine ⟨hp, ?_, ?_, by decide, ?_⟩
  · simp [heartbeatStep, hp, hpa, List.append_assoc]
  · simp [heartbeatStep, hbad, MState.isOk]
  · intro rest
    have hmd : ('-' : Char).isDigit = false := by decide
    have hd : ('-' :: rest).all Char.isDigit = false := by
      simp [List.all_cons, hmd]
    unfold parseU64
    dsimp only
    rw [if_neg (by decide : ¬ ('-' : Char) = '+')]
    simp [hd]

/-- Witness for C9 at concrete inputs: content `" 42\x0C"` (trailing form
feed, Unicode whitespace beyond ASCII space/tab/CR/LF) parses to 42; content
`"x1"` from `Ok` starts the grace period with the literal content quoted. -/
theorem heartbeat_parse_c9_witness :
    parseU64 (trimChars ([' '] ++ ['4', '2'] ++ ['\x0C'])) = some (digitsVal ['4', '2']) ∧
    heartbeatStep 1000 true (some ['x', '1'])
        ⟨.Ok 1200, ⟨1800, 300, 120, false⟩, 0, none⟩
      = ⟨⟨.GracePeriod 1300, ⟨1800, 300, 120, false⟩, 0, none⟩,
          [.parseFailGrace, .parseFailContent ['x', '1']], 1, 1⟩ := by
  have h := heartbeat_parse_c9 1000 1200 .NoData ⟨1800, 300, 120, false⟩ none none
    [' '] ['4', '2'] ['\x0C'] ['x', '1']
    (by decide) (by decide) (by decide) (by decide) (by decide) (by decide)
  exact ⟨h.1, h.2.2.1⟩
